import Mathlib

/-!
Verification of the subscription-key lifecycle engine.

The system has two processes sharing one MongoDB instance:
the API server (`src/server.js`) holding the `Subscription` collection, and
the admin console (`src/unnamed/part_000`) holding the `Key` collection.
Timestamps are modelled as integer milliseconds since the epoch; a MongoDB
`Date` field that may be absent or null is an `Option Int` (the Mongo
comparison `$lt: <date>` only matches values that are actual dates, so
`none` never matches a `$lt` filter, mirroring type-bracketed comparison).
A collection is a list of records; `save` on a fetched document writes it
back over every record with the same unique key.
-/

/-- A document of the `Subscription` collection (src/server.js lines 23-63). -/
structure Subscription where
  key : String
  userId : Int
  username : Option String
  firstName : Option String
  lastName : Option String
  subscriptionType : String
  createdAt : Int
  expiresAt : Option Int
  isActive : Bool
  isFrozen : Bool
  frozenDays : Int
  lastChecked : Int
  deriving DecidableEq, Repr

/-- A document of the admin console `Key` collection (src/unnamed/part_000 lines 29-37). -/
structure KeyRecord where
  key : String
  userId : Option String
  subscriptionType : String
  createdAt : Int
  expiresAt : Option Int
  isActive : Bool
  isPermanent : Bool
  deriving DecidableEq, Repr

/-- The expiry test of the validation handler (src/server.js line 108):
`subscription.expiresAt && subscription.expiresAt < new Date()`.
A present `Date` object is always truthy in JavaScript, so the guard is
exactly "expiresAt is present and earlier than now". -/
def expiredCheck (s : Subscription) (now : Int) : Bool :=
  match s.expiresAt with
  | some e => decide (e < now)
  | none => false

/-- Outcome of `GET /users/user/connect/:key` (src/server.js lines 91-147). -/
inductive CheckResult where
  | notFound
  | expired
  | found (snapshot : Subscription)
  deriving DecidableEq, Repr

/-- HTTP status attached to each validation outcome (404 / 410 / 200). -/
def statusCode : CheckResult → Nat
  | CheckResult.notFound => 404
  | CheckResult.expired => 410
  | CheckResult.found _ => 200

/-- Mongoose `document.save()`: write the fetched-and-mutated document back
over the record carrying the same unique key. -/
def saveByKey (db : List Subscription) (r : Subscription) : List Subscription :=
  db.map (fun s => if s.key == r.key then r else s)

/-- The validation handler (src/server.js lines 91-147): look up one record
with `{ key, isActive: true }`; absent gives 404; otherwise, if the expiry
guard fires, persist `isActive = false` and answer 410; otherwise persist a
`lastChecked` touch and answer 200 with the snapshot. The third component
counts the persisted writes (`save` calls) of the request. -/
def checkKey (db : List Subscription) (k : String) (now : Int) :
    CheckResult × List Subscription × Nat :=
  match db.find? (fun s => s.key == k && s.isActive) with
  | none => (CheckResult.notFound, db, 0)
  | some sub =>
    if expiredCheck sub now then
      let sub2 := { sub with isActive := false }
      (CheckResult.expired, saveByKey db sub2, 1)
    else
      let sub2 := { sub with lastChecked := now }
      (CheckResult.found sub2, saveByKey db sub2, 1)

/-- The filter of the bulk sweep `updateMany` (src/server.js lines 308-316 and
355-373): `expiresAt: { $lt: now }, isActive: true`. -/
def sweepMatch (s : Subscription) (now : Int) : Bool :=
  (match s.expiresAt with
   | some e => decide (e < now)
   | none => false) && s.isActive

/-- Effect of the sweep `updateMany` on one record: set `isActive = false`
when the filter matches, leave the record alone otherwise. -/
def sweepStep (now : Int) (s : Subscription) : Subscription :=
  if sweepMatch s now then { s with isActive := false } else s

/-- One sweep tick over the `Subscription` collection: the hourly
`setInterval` body and the `POST /subscriptions/cleanup` handler run the same
`updateMany` (src/server.js lines 306-330 and 355-373). -/
def sweepTick (db : List Subscription) (now : Int) : List Subscription :=
  db.map (sweepStep now)

/-- The single-record deactivation decision of the validation path
(src/server.js lines 95-116): the record is deactivated by a read at `now`
iff the `{ isActive: true }` lookup admits it and the expiry guard fires. -/
def lazyDeactivates (s : Subscription) (now : Int) : Bool :=
  s.isActive && expiredCheck s now

/-- Filter of the admin console hourly sweeper `Key.deleteMany`
(src/unnamed/part_000 lines 190-203): `isPermanent: false` and
`expiresAt: { $lt: now }`. -/
def keySweepMatch (k : KeyRecord) (now : Int) : Bool :=
  !k.isPermanent &&
    (match k.expiresAt with
     | some e => decide (e < now)
     | none => false)

/-- One tick of the admin console sweeper: it DELETES every matching
record (`deleteMany`), keeping only non-matching ones. -/
def keySweepTick (db : List KeyRecord) (now : Int) : List KeyRecord :=
  db.filter (fun k => !keySweepMatch k now)

/-- `POST /keys/:id/toggle` (src/unnamed/part_000 lines 166-181):
`key.isActive = !key.isActive` with no other field read or written. -/
def toggleActiveKey (k : KeyRecord) : KeyRecord :=
  { k with isActive := !k.isActive }

/-- A value supplied in the JSON body of the permissive update. -/
inductive FieldValue where
  | str (s : String)
  | int (n : Int)
  | bool (b : Bool)
  | date (t : Int)
  | null
  deriving DecidableEq, Repr

/-- The paths of `subscriptionSchema` (src/server.js lines 23-61), including
the implicit `_id` and `__v` paths mongoose adds; the guard of the update loop
`field in subscription.schema.paths` tests membership here. -/
def schemaPaths : List String :=
  ["_id", "key", "userId", "username", "firstName", "lastName",
   "subscriptionType", "createdAt", "expiresAt", "isActive", "isFrozen",
   "frozenDays", "lastChecked", "__v"]

/-- `subscription[field] = updates[field]` for one schema field, with
the mongoose cast applied (a value of the wrong shape is ignored here; the
claims under study never hit that case). -/
def setField (s : Subscription) (f : String) (v : FieldValue) : Subscription :=
  if f = "key" then
    (match v with
     | FieldValue.str x => { s with key := x }
     | _ => s)
  else if f = "userId" then
    (match v with
     | FieldValue.int n => { s with userId := n }
     | _ => s)
  else if f = "username" then
    (match v with
     | FieldValue.str x => { s with username := some x }
     | FieldValue.null => { s with username := none }
     | _ => s)
  else if f = "firstName" then
    (match v with
     | FieldValue.str x => { s with firstName := some x }
     | FieldValue.null => { s with firstName := none }
     | _ => s)
  else if f = "lastName" then
    (match v with
     | FieldValue.str x => { s with lastName := some x }
     | FieldValue.null => { s with lastName := none }
     | _ => s)
  else if f = "subscriptionType" then
    (match v with
     | FieldValue.str x => { s with subscriptionType := x }
     | _ => s)
  else if f = "createdAt" then
    (match v with
     | FieldValue.date t => { s with createdAt := t }
     | _ => s)
  else if f = "expiresAt" then
    (match v with
     | FieldValue.date t => { s with expiresAt := some t }
     | FieldValue.null => { s with expiresAt := none }
     | _ => s)
  else if f = "isActive" then
    (match v with
     | FieldValue.bool b => { s with isActive := b }
     | _ => s)
  else if f = "isFrozen" then
    (match v with
     | FieldValue.bool b => { s with isFrozen := b }
     | _ => s)
  else if f = "frozenDays" then
    (match v with
     | FieldValue.int n => { s with frozenDays := n }
     | _ => s)
  else if f = "lastChecked" then
    (match v with
     | FieldValue.date t => { s with lastChecked := t }
     | _ => s)
  else s

/-- The permissive field-update loop of `PUT /subscriptions/:key`
(src/server.js lines 227-231): for each supplied field, assign it iff the
name is a schema path; unknown names are silently ignored. -/
def applyUpdates (s : Subscription) (updates : List (String × FieldValue)) :
    Subscription :=
  updates.foldl
    (fun acc p => if schemaPaths.contains p.1 then setField acc p.1 p.2 else acc) s

/-- Body of `POST /subscriptions` (src/server.js lines 150-209). Fields may
be absent from the JSON body. -/
structure CreateRequest where
  userId : Option Int
  username : Option String
  firstName : Option String
  lastName : Option String
  subscriptionType : Option String
  key : Option String
  durationDays : Option Int
  deriving DecidableEq, Repr

/-- JavaScript truthiness of a possibly-absent number: `undefined` and `0`
are falsy. -/
def truthyInt : Option Int → Bool
  | some n => n != 0
  | none => false

/-- JavaScript truthiness of a possibly-absent string: `undefined` and `""`
are falsy. -/
def truthyStr : Option String → Bool
  | some s => s != ""
  | none => false

/-- Milliseconds in one day, for `setDate(getDate() + durationDays)`. -/
def msPerDay : Int := 86400000

/-- The creation-time expiry computation (src/server.js lines 169-174):
`let expiresAt = null; if (durationDays && durationDays > 0) { now + days }`. -/
def durationExpiry (durationDays : Option Int) (now : Int) : Option Int :=
  if truthyInt durationDays then
    match durationDays with
    | some d => if decide (0 < d) then some (now + d * msPerDay) else none
    | none => none
  else none

/-- Outcome of `POST /subscriptions` (400 / 409 / 201). -/
inductive CreateResult where
  | badRequest
  | conflict
  | created (snapshot : Subscription)
  deriving DecidableEq, Repr

/-- HTTP status attached to each creation outcome. -/
def createStatus : CreateResult → Nat
  | CreateResult.badRequest => 400
  | CreateResult.conflict => 409
  | CreateResult.created _ => 201

/-- `POST /subscriptions` (src/server.js lines 150-209): reject with 400 when
`!userId || !subscriptionType || !key`; otherwise build the record (schema
defaults fill `isFrozen`, `frozenDays`, `createdAt`, `lastChecked`) and
`save()` it — the unique index on `key` turns a duplicate into error 11000,
answered with 409 and no change to the store. First, the record built by
`new Subscription({...})` (src/server.js lines 176-185) with the schema
defaults for `isFrozen`, `frozenDays`, `createdAt` and `lastChecked`: -/
def buildSub (req : CreateRequest) (now : Int) : Subscription :=
  { key := req.key.getD ("")
    userId := req.userId.getD 0
    username := req.username
    firstName := req.firstName
    lastName := req.lastName
    subscriptionType := req.subscriptionType.getD ("")
    createdAt := now
    expiresAt := durationExpiry req.durationDays now
    isActive := true
    isFrozen := false
    frozenDays := 0
    lastChecked := now }

def createSubscription (db : List Subscription) (req : CreateRequest) (now : Int) :
    CreateResult × List Subscription :=
  if !truthyInt req.userId || !truthyStr req.subscriptionType || !truthyStr req.key then
    (CreateResult.badRequest, db)
  else if db.any (fun s => s.key == req.key.getD ("")) then (CreateResult.conflict, db)
  else (CreateResult.created (buildSub req now), db ++ [buildSub req now])

/-- The expiry-at-creation policy as the specification words it: present and
positive duration gives `now` plus that many days, anything else gives a
permanent key. Stated separately from `durationExpiry` (which mirrors the
truthiness test of the code) so their agreement is a theorem, not a definition. -/
def durationPolicy (durationDays : Option Int) (now : Int) : Option Int :=
  match durationDays with
  | some d => if decide (0 < d) then some (now + d * msPerDay) else none
  | none => none

/-- An automated expiration step against the `Subscription` store: one sweep
tick, or the store effect of one validation read. -/
inductive SweepOp where
  | sweep (now : Int)
  | validate (k : String) (now : Int)
  deriving DecidableEq, Repr

/-- Store effect of one automated step. -/
def runOp (db : List Subscription) (op : SweepOp) : List Subscription :=
  match op with
  | SweepOp.sweep now => sweepTick db now
  | SweepOp.validate k now => (checkKey db k now).2.1

/-- Store effect of a finite sequence of automated steps. -/
def runOps (db : List Subscription) (ops : List SweepOp) : List Subscription :=
  ops.foldl runOp db

/-! ### Helper lemmas -/

theorem key_saveByKey (db : List Subscription) (r : Subscription) :
    (saveByKey db r).map Subscription.key = db.map Subscription.key := by
  simp only [saveByKey, List.map_map]
  apply List.map_congr_left
  intro s _
  simp only [Function.comp_apply]
  by_cases h : s.key = r.key
  · simp [h]
  · simp [beq_iff_eq, h]

theorem key_checkKey (db : List Subscription) (k : String) (now : Int) :
    ((checkKey db k now).2.1).map Subscription.key = db.map Subscription.key := by
  cases hf : db.find? (fun s => s.key == k && s.isActive) with
  | none => simp [checkKey, hf]
  | some sub =>
    by_cases he : expiredCheck sub now
    · simp [checkKey, hf, he, key_saveByKey]
    · simp [checkKey, hf, he, key_saveByKey]

theorem key_sweepTick (db : List Subscription) (now : Int) :
    (sweepTick db now).map Subscription.key = db.map Subscription.key := by
  simp only [sweepTick, List.map_map]
  apply List.map_congr_left
  intro s _
  simp only [Function.comp_apply, sweepStep]
  by_cases h : sweepMatch s now <;> simp [h]

theorem key_runOp (db : List Subscription) (op : SweepOp) :
    (runOp db op).map Subscription.key = db.map Subscription.key := by
  cases op with
  | sweep now => simpa [runOp] using key_sweepTick db now
  | validate k now => simpa [runOp] using key_checkKey db k now

theorem key_runOps (db : List Subscription) (ops : List SweepOp) :
    (runOps db ops).map Subscription.key = db.map Subscription.key := by
  induction ops generalizing db with
  | nil => rfl
  | cons op rest ih =>
    have h1 : runOps db (op :: rest) = runOps (runOp db op) rest := rfl
    rw [h1, ih (runOp db op), key_runOp]

theorem length_runOp (db : List Subscription) (op : SweepOp) :
    (runOp db op).length = db.length := by
  simpa using congrArg List.length (key_runOp db op)

theorem key_setField (s : Subscription) (f : String) (v : FieldValue)
    (h : f ≠ "key") : (setField s f v).key = s.key := by
  unfold setField
  rw [if_neg h]
  cases v <;> simp [apply_ite Subscription.key]

theorem key_applyUpdates (s : Subscription) (updates : List (String × FieldValue))
    (h : ∀ p ∈ updates, p.1 ≠ "key") :
    (applyUpdates s updates).key = s.key := by
  induction updates generalizing s with
  | nil => rfl
  | cons p rest ih =>
    have hp : p.1 ≠ "key" := h p (List.mem_cons_self p rest)
    have hr : ∀ q ∈ rest, q.1 ≠ "key" := fun q hq => h q (List.mem_cons_of_mem p hq)
    show (applyUpdates
      (if schemaPaths.contains p.1 then setField s p.1 p.2 else s) rest).key = s.key
    by_cases hc : schemaPaths.contains p.1
    · rw [if_pos hc, ih _ hr, key_setField s p.1 p.2 hp]
    · rw [if_neg hc, ih _ hr]

theorem sweepMatch_eq (s : Subscription) (now : Int) :
    sweepMatch s now = (expiredCheck s now && s.isActive) := by
  cases hx : s.expiresAt <;> simp [sweepMatch, expiredCheck, hx]

/-! ### Concrete records used by witnesses and counterexamples -/

/-- A permanent subscription (no `expiresAt`). -/
def permSub : Subscription :=
  { key := "P", userId := 1, username := none, firstName := none,
    lastName := none, subscriptionType := "basic", createdAt := 0,
    expiresAt := none, isActive := true, isFrozen := false, frozenDays := 0,
    lastChecked := 0 }

/-- An active subscription whose `expiresAt` (5) is already past at time 6. -/
def expSub : Subscription :=
  { key := "K", userId := 2, username := none, firstName := none,
    lastName := none, subscriptionType := "pro", createdAt := 0,
    expiresAt := some 5, isActive := true, isFrozen := false, frozenDays := 0,
    lastChecked := 0 }

/-- An expired, already-deactivated subscription. -/
def expiredInactive : Subscription :=
  { key := "K1", userId := 3, username := none, firstName := none,
    lastName := none, subscriptionType := "pro", createdAt := 0,
    expiresAt := some 0, isActive := false, isFrozen := false, frozenDays := 0,
    lastChecked := 0 }

/-- A non-permanent admin-console key whose `expiresAt` (0) is past at time 1. -/
def kr0 : KeyRecord :=
  { key := "K1", userId := none, subscriptionType := "basic", createdAt := 0,
    expiresAt := some 0, isActive := true, isPermanent := false }

/-! ### Claims -/

/-- C1 counterexample: the admin console hourly sweeper removes records
from the store rather than deactivating them — a non-permanent active key
whose `expiresAt` is past is deleted by a sweep tick, with no admin delete
involved. -/
theorem key_sweep_deletes_record_cex :
    kr0.isActive = true ∧ keySweepTick [kr0] 1 = [] := by decide

/-- C1 amended: in the `Subscription` store of the API server, automated
expiration steps (hourly sweep ticks, on-demand cleanup, and lazy expiration
during validation) never remove a record: any sequence of such steps
preserves the stored keys exactly, so a record disappears only through the
explicit admin delete. The admin console `Key` store is the exception: its
hourly sweeper `deleteMany` deletes every expired non-permanent record. -/
theorem subscription_expiration_never_deletes
    (db : List Subscription) (ops : List SweepOp) :
    (runOps db ops).map Subscription.key = db.map Subscription.key :=
  key_runOps db ops

/-- C2 counterexample: `key` is itself a schema path, so the permissive
update loop applied to a field map binding `"key"` changes the key of the record
after creation. -/
theorem update_changes_key_cex :
    permSub.key = "P" ∧
    (applyUpdates permSub [("key", FieldValue.str ("OTHER"))]).key = "OTHER" := by
  decide

/-- C2 amended: the `key` field of a record is never changed by validation,
sweep ticks, or the admin toggle, and the permissive field update leaves
`key` unchanged whenever the supplied field map does not bind the name
`"key"`; binding `"key"` in the map, however, does change it (the loop
admits every schema path, and `key` is one). -/
theorem key_immutable_outside_key_updates
    (s : Subscription) (updates : List (String × FieldValue))
    (h : ∀ p ∈ updates, p.1 ≠ "key")
    (db : List Subscription) (k : String) (now : Int) (kr : KeyRecord) :
    (applyUpdates s updates).key = s.key ∧
    (sweepStep now s).key = s.key ∧
    ((checkKey db k now).2.1).map Subscription.key = db.map Subscription.key ∧
    (toggleActiveKey kr).key = kr.key := by
  refine ⟨key_applyUpdates s updates h, ?_, key_checkKey db k now, rfl⟩
  simp only [sweepStep]
  by_cases hs : sweepMatch s now <;> simp [hs]

theorem key_immutable_outside_key_updates_witness :
    (applyUpdates permSub [("isFrozen", FieldValue.bool true)]).key = permSub.key ∧
    (sweepStep 6 permSub).key = permSub.key ∧
    ((checkKey [expSub] "K" 6).2.1).map Subscription.key =
      [expSub].map Subscription.key ∧
    (toggleActiveKey kr0).key = kr0.key :=
  key_immutable_outside_key_updates permSub [("isFrozen", FieldValue.bool true)]
    (by decide) [expSub] "K" 6 kr0

/-- C3: the single-record lazy deactivation decision of the validation path
agrees extensionally with membership in the bulk sweep filter, and on a
one-record store a validation read and a sweep tick leave the record with
the same `isActive` value. -/
theorem lazy_eager_decision_agree (s : Subscription) (now : Int) :
    lazyDeactivates s now = sweepMatch s now ∧
    ((checkKey [s] s.key now).2.1).map Subscription.isActive =
      (sweepTick [s] now).map Subscription.isActive := by
  constructor
  · rw [lazyDeactivates, sweepMatch_eq, Bool.and_comm]
  · cases ha : s.isActive with
    | false =>
      have hfind : List.find? (fun t => t.key == s.key && t.isActive) [s] = none := by
        simp [List.find?, ha]
      have hm : sweepMatch s now = false := by
        simp [sweepMatch_eq, ha]
      simp [checkKey, hfind, sweepTick, sweepStep, hm]
    | true =>
      have hfind : List.find? (fun t => t.key == s.key && t.isActive) [s] = some s := by
        simp [List.find?, ha]
      have hm : sweepMatch s now = expiredCheck s now := by
        simp [sweepMatch_eq, ha]
      by_cases he : expiredCheck s now
      · simp [checkKey, hfind, he, hm, saveByKey, sweepTick, sweepStep]
      · simp [checkKey, hfind, he, hm, saveByKey, sweepTick, sweepStep, ha]

/-- C5: every validation call that answers Found or Expired performs exactly
one persisted write — the deactivation in the expired case or the
`lastChecked` touch in the found case — never zero and never two. -/
theorem checkKey_exactly_one_write (db : List Subscription) (k : String)
    (now : Int) (h : (checkKey db k now).1 ≠ CheckResult.notFound) :
    (checkKey db k now).2.2 = 1 := by
  cases hf : db.find? (fun s => s.key == k && s.isActive) with
  | none => exact absurd (by simp [checkKey, hf]) h
  | some sub => by_cases he : expiredCheck sub now <;> simp [checkKey, hf, he]

theorem checkKey_exactly_one_write_witness :
    (checkKey [expSub] "K" 6).2.2 = 1 :=
  checkKey_exactly_one_write [expSub] "K" 6 (by decide)

theorem durationExpiry_eq_policy (d : Option Int) (now : Int) :
    durationExpiry d now = durationPolicy d now := by
  cases d with
  | none => rfl
  | some x =>
    by_cases hx : x = 0
    · simp [durationExpiry, durationPolicy, truthyInt, hx]
    · simp [durationExpiry, durationPolicy, truthyInt, hx]

/-- C4: when validation finds an active record whose `expiresAt` is present
and earlier than `now`, it persists `isActive = false` and answers Expired
(HTTP 410); the persisted store holds no active record under that key any
more, so a later lookup of the same key answers NotFound. -/
theorem checkKey_expired_deactivates_and_persists
    (db : List Subscription) (k : String) (now e now2 : Int) (sub : Subscription)
    (hf : db.find? (fun s => s.key == k && s.isActive) = some sub)
    (he : sub.expiresAt = some e) (hlt : e < now) :
    (checkKey db k now).1 = CheckResult.expired ∧
    statusCode (checkKey db k now).1 = 410 ∧
    ((checkKey db k now).2.1).find? (fun s => s.key == k && s.isActive) = none ∧
    (checkKey (checkKey db k now).2.1 k now2).1 = CheckResult.notFound := by
  have hx : expiredCheck sub now = true := by simp [expiredCheck, he, hlt]
  have hkey : sub.key = k := by
    have hp := List.find?_some hf
    rw [Bool.and_eq_true, beq_iff_eq] at hp
    exact hp.1
  have hnone : ∀ x ∈ saveByKey db { sub with isActive := false },
      ¬ ((fun s => s.key == k && s.isActive) x = true) := by
    intro x hx2
    rw [saveByKey, List.mem_map] at hx2
    obtain ⟨t, ht, hteq⟩ := hx2
    by_cases htk : t.key = sub.key
    · have hxe : x = { sub with isActive := false } := by
        rw [← hteq]; simp [htk]
      rw [hxe]; simp
    · have hxe : x = t := by
        rw [← hteq]; simp [beq_iff_eq, htk]
      rw [hxe]
      rintro hcon
      rw [Bool.and_eq_true, beq_iff_eq] at hcon
      exact htk (hcon.1.trans hkey.symm)
  have hdb2 : (checkKey db k now).2.1 = saveByKey db { sub with isActive := false } := by
    simp [checkKey, hf, hx]
  refine ⟨?_, ?_, ?_, ?_⟩
  · simp [checkKey, hf, hx]
  · simp [checkKey, hf, hx, statusCode]
  · rw [hdb2]; exact List.find?_eq_none.mpr hnone
  · have hfn : ((checkKey db k now).2.1).find? (fun s => s.key == k && s.isActive) = none := by
      rw [hdb2]; exact List.find?_eq_none.mpr hnone
    generalize hdd : (checkKey db k now).2.1 = db3 at hfn ⊢
    simp [checkKey, hfn]

theorem checkKey_expired_deactivates_and_persists_witness :
    (checkKey [expSub] "K" 6).1 = CheckResult.expired ∧
    statusCode (checkKey [expSub] "K" 6).1 = 410 ∧
    ((checkKey [expSub] "K" 6).2.1).find? (fun s => s.key == "K" && s.isActive) = none ∧
    (checkKey ((checkKey [expSub] "K" 6).2.1) "K" 7).1 = CheckResult.notFound :=
  checkKey_expired_deactivates_and_persists [expSub] "K" 6 5 7 expSub (by decide)
    (by decide) (by decide)

theorem runOp_permanent_step (db : List Subscription) (op : SweepOp) (i : Nat)
    (s : Subscription) (hnd : (db.map Subscription.key).Nodup)
    (hi : db[i]? = some s) (hperm : s.expiresAt = none) :
    ∃ t : Subscription, (runOp db op)[i]? = some t ∧
      t.isActive = s.isActive ∧ t.expiresAt = none := by
  cases op with
  | sweep now =>
    refine ⟨sweepStep now s, ?_, ?_, ?_⟩ <;>
      simp [runOp, sweepTick, List.getElem?_map, hi, sweepStep, sweepMatch_eq,
        expiredCheck, hperm]
  | validate k now =>
    cases hf : db.find? (fun t => t.key == k && t.isActive) with
    | none =>
      refine ⟨s, ?_, rfl, hperm⟩
      simp [runOp, checkKey, hf, hi]
    | some sub =>
      have hmem : sub ∈ db := List.mem_of_find?_eq_some hf
      have hsm : s ∈ db := List.getElem?_mem hi
      by_cases hsk : s.key = sub.key
      · have hss : s = sub := List.inj_on_of_nodup_map hnd hsm hmem hsk
        have hec : expiredCheck sub now = false := by
          simp [expiredCheck, ← hss, hperm]
        refine ⟨{ sub with lastChecked := now }, ?_, ?_, ?_⟩
        · simp [runOp, checkKey, hf, hec, saveByKey, List.getElem?_map, hi, hsk]
        · rw [← hss]
        · rw [← hss]; exact hperm
      · refine ⟨s, ?_, rfl, hperm⟩
        by_cases hec : expiredCheck sub now
        · simp [runOp, checkKey, hf, hec, saveByKey, List.getElem?_map, hi,
            beq_iff_eq, hsk]
        · simp [runOp, checkKey, hf, hec, saveByKey, List.getElem?_map, hi,
            beq_iff_eq, hsk]

/-- C6: a record whose `expiresAt` is absent is never auto-expired: under any
finite sequence of sweep ticks and validation reads over a store with unique
keys (the unique index), its `isActive` value is preserved and its
`expiresAt` stays absent — neither the sweep filter nor the validation
expiry guard can ever match it. -/
theorem permanent_key_never_auto_deactivated (db : List Subscription)
    (ops : List SweepOp) (i : Nat) (s : Subscription)
    (hnd : (db.map Subscription.key).Nodup)
    (hi : db[i]? = some s) (hperm : s.expiresAt = none) :
    ((runOps db ops)[i]?).map Subscription.isActive = some s.isActive ∧
    ((runOps db ops)[i]?).map Subscription.expiresAt = some none := by
  induction ops generalizing db s with
  | nil => simp [runOps, hi, hperm]
  | cons op rest ih =>
    obtain ⟨t, ht, hact, hexp⟩ := runOp_permanent_step db op i s hnd hi hperm
    have hnd2 : ((runOp db op).map Subscription.key).Nodup := by
      rw [key_runOp]; exact hnd
    have hstep : runOps db (op :: rest) = runOps (runOp db op) rest := rfl
    rw [hstep]
    have hrest := ih (runOp db op) t hnd2 ht hexp
    exact ⟨hrest.1.trans (by rw [hact]), hrest.2⟩

theorem permanent_key_never_auto_deactivated_witness :
    ((runOps [permSub] [SweepOp.sweep 100, SweepOp.validate ("P") 100])[0]?).map
      Subscription.isActive = some permSub.isActive ∧
    ((runOps [permSub] [SweepOp.sweep 100, SweepOp.validate ("P") 100])[0]?).map
      Subscription.expiresAt = some none :=
  permanent_key_never_auto_deactivated [permSub]
    [SweepOp.sweep 100, SweepOp.validate ("P") 100] 0 permSub (by decide) rfl rfl

/-- C7: a successful create yields an active record whose `expiresAt`
follows the stated duration policy — a present positive `durationDays`
gives `now` plus that many days, while an absent, zero, or negative
`durationDays` gives a permanent record with `expiresAt` absent; with
`durationDays = 0` the created key is moreover immediately valid. -/
theorem create_expiry_policy (db : List Subscription) (req : CreateRequest)
    (now : Int) (r : Subscription) (db2 : List Subscription)
    (h : createSubscription db req now = (CreateResult.created r, db2)) :
    r.isActive = true ∧
    r.expiresAt = durationPolicy req.durationDays now ∧
    (req.durationDays = some 0 →
      (checkKey db2 r.key now).1 = CheckResult.found { r with lastChecked := now }) := by
  by_cases hv : (!truthyInt req.userId || !truthyStr req.subscriptionType ||
      !truthyStr req.key) = true
  · rw [createSubscription, if_pos hv] at h
    exact absurd (congrArg Prod.fst h) (by simp)
  · rw [createSubscription, if_neg hv] at h
    by_cases hdup : db.any (fun s => s.key == req.key.getD ("")) = true
    · rw [if_pos hdup] at h
      exact absurd (congrArg Prod.fst h) (by simp)
    · rw [if_neg hdup] at h
      rw [Prod.mk.injEq] at h
      obtain ⟨h1, h2⟩ := h
      injection h1 with hr
      subst hr
      subst h2
      refine ⟨rfl, ?_, ?_⟩
      · show durationExpiry req.durationDays now = durationPolicy req.durationDays now
        exact durationExpiry_eq_policy req.durationDays now
      · intro h0
        have hdup2 : db.any (fun s => s.key == req.key.getD ("")) = false := by
          simpa using hdup
        rw [List.any_eq_false] at hdup2
        have hexp : (buildSub req now).expiresAt = none := by
          show durationExpiry req.durationDays now = none
          rw [h0]
          rfl
        have hfinddb :
            db.find? (fun s => s.key == (buildSub req now).key && s.isActive) = none := by
          rw [List.find?_eq_none]
          intro x hx
          rintro hcon
          rw [Bool.and_eq_true] at hcon
          exact hdup2 x hx hcon.1
        have hfind2 : (db ++ [buildSub req now]).find?
            (fun s => s.key == (buildSub req now).key && s.isActive) =
            some (buildSub req now) := by
          rw [List.find?_append, hfinddb]
          simp [List.find?]
          rfl
        have hec : expiredCheck (buildSub req now) now = false := by
          simp [expiredCheck, hexp]
        simp [checkKey, hfind2, hec]

def req0 : CreateRequest :=
  { userId := some 7, username := none, firstName := none, lastName := none,
    subscriptionType := some ("pro"), key := some ("NEW"), durationDays := some 0 }

def r0 : Subscription :=
  { key := "NEW", userId := 7, username := none, firstName := none,
    lastName := none, subscriptionType := "pro", createdAt := 1000,
    expiresAt := none, isActive := true, isFrozen := false, frozenDays := 0,
    lastChecked := 1000 }

theorem create_expiry_policy_witness :
    r0.isActive = true ∧
    r0.expiresAt = durationPolicy (some 0) 1000 ∧
    (req0.durationDays = some 0 →
      (checkKey [r0] r0.key 1000).1 = CheckResult.found { r0 with lastChecked := 1000 }) :=
  create_expiry_policy [] req0 1000 r0 [r0] (by decide)

/-- C8: creating a key that already exists in the store answers Conflict
(HTTP 409) and leaves the store — in particular the original record under
that key — unchanged. -/
theorem create_duplicate_conflict (db : List Subscription) (req : CreateRequest)
    (now : Int) (k : String) (hk : req.key = some k)
    (hu : truthyInt req.userId = true)
    (ht : truthyStr req.subscriptionType = true)
    (hks : truthyStr req.key = true)
    (hdup : db.any (fun s => s.key == k) = true) :
    createSubscription db req now = (CreateResult.conflict, db) ∧
    createStatus (createSubscription db req now).1 = 409 := by
  have hgd : req.key.getD ("") = k := by rw [hk]; rfl
  have hres : createSubscription db req now = (CreateResult.conflict, db) := by
    rw [createSubscription, if_neg (by simp [hu, ht, hks]), hgd, if_pos hdup]
  exact ⟨hres, by rw [hres]; rfl⟩

def dupReq : CreateRequest :=
  { userId := some 9, username := none, firstName := none, lastName := none,
    subscriptionType := some ("basic"), key := some ("P"), durationDays := none }

theorem create_duplicate_conflict_witness :
    createSubscription [permSub] dupReq 50 = (CreateResult.conflict, [permSub]) ∧
    createStatus (createSubscription [permSub] dupReq 50).1 = 409 :=
  create_duplicate_conflict [permSub] dupReq 50 "P" rfl (by decide) (by decide)
    (by decide) (by decide)

/-- C9 counterexample: reactivating the expired, deactivated record
`expiredInactive` and then validating its key does not yield Found — the
validation handler re-checks expiry, answers Expired (HTTP 410), and
persists `isActive = false` again. -/
theorem toggle_then_validate_not_found_cex :
    (checkKey [{ expiredInactive with isActive := true }] "K1" 1).1 =
      CheckResult.expired ∧
    statusCode (checkKey [{ expiredInactive with isActive := true }] "K1" 1).1 = 410 ∧
    (checkKey [{ expiredInactive with isActive := true }] "K1" 1).2.1 =
      [expiredInactive] := by
  decide

/-- C9 amended: the admin toggle flips `isActive` unconditionally, changing
and consulting no other field (in particular not `expiresAt`); but a
subsequent validation of a reactivated record whose `expiresAt` lies in the
past does not return Found — it finds the record, re-applies lazy
expiration, answers Expired, and persists `isActive = false` again. -/
theorem toggle_flip_and_validation_reexpires (kr : KeyRecord) (s : Subscription)
    (now e : Int) (he : s.expiresAt = some e) (hlt : e < now) :
    (toggleActiveKey kr).isActive = (!kr.isActive) ∧
    (toggleActiveKey kr).expiresAt = kr.expiresAt ∧
    (toggleActiveKey kr).key = kr.key ∧
    (checkKey [{ s with isActive := true }] s.key now).1 = CheckResult.expired ∧
    (checkKey [{ s with isActive := true }] s.key now).2.1 =
      [{ s with isActive := false }] := by
  have hx : expiredCheck { s with isActive := true } now = true := by
    simp [expiredCheck, he, hlt]
  have hfind : List.find? (fun t => t.key == s.key && t.isActive)
      [{ s with isActive := true }] = some { s with isActive := true } := by
    simp [List.find?]
  refine ⟨rfl, rfl, rfl, ?_, ?_⟩ <;> simp [checkKey, hfind, hx, saveByKey]

theorem toggle_flip_and_validation_reexpires_witness :
    (toggleActiveKey kr0).isActive = (!kr0.isActive) ∧
    (toggleActiveKey kr0).expiresAt = kr0.expiresAt ∧
    (toggleActiveKey kr0).key = kr0.key ∧
    (checkKey [{ expiredInactive with isActive := true }] expiredInactive.key 1).1 =
      CheckResult.expired ∧
    (checkKey [{ expiredInactive with isActive := true }] expiredInactive.key 1).2.1 =
      [{ expiredInactive with isActive := false }] :=
  toggle_flip_and_validation_reexpires kr0 expiredInactive 1 0 rfl (by decide)

/-- C10: a create request whose `userId` is the number 0, or whose `key` or
`subscriptionType` is the empty string, is rejected as missing required
fields (HTTP 400) and creates no record: the required-field presence test is
JavaScript truthiness, which 0 and the empty string fail. -/
theorem create_truthiness_rejects (db : List Subscription) (req : CreateRequest)
    (now : Int)
    (h : req.userId = some 0 ∨ req.key = some ("") ∨ req.subscriptionType = some ("")) :
    createSubscription db req now = (CreateResult.badRequest, db) ∧
    createStatus (createSubscription db req now).1 = 400 := by
  have hb : (!truthyInt req.userId || !truthyStr req.subscriptionType ||
      !truthyStr req.key) = true := by
    rcases h with h | h | h <;> simp [truthyInt, truthyStr, h]
  have hres : createSubscription db req now = (CreateResult.badRequest, db) := by
    rw [createSubscription, if_pos hb]
  exact ⟨hres, by rw [hres]; rfl⟩

def zeroReq : CreateRequest :=
  { userId := some 0, username := none, firstName := none, lastName := none,
    subscriptionType := some ("basic"), key := some ("Z"), durationDays := some 3 }

theorem create_truthiness_rejects_witness :
    createSubscription [] zeroReq 7 = (CreateResult.badRequest, []) ∧
    createStatus (createSubscription [] zeroReq 7).1 = 400 :=
  create_truthiness_rejects [] zeroReq 7 (Or.inl rfl)
